import Mathlib

/-!
Verification of the pest playground core (`src/lib.rs`, `src/serializer.rs`)
against its natural-language specification.

The Rust source is shallowly embedded: strings are `List Char` where byte
offsets matter (the Position Mapper slices by UTF-8 byte index) and `String`
elsewhere; the process-wide `static mut VM` slot is threaded explicitly as an
`Option Vm` argument and result; Rust panics (`unreachable!`, out-of-bounds /
non-boundary slicing, `expect_throw`) are modelled as `Except`/`Option`
failure values.  The external pest crates (`pest_meta`, `pest_vm`,
`pest_fmt`) are collaborators outside this repository and are modelled as
function-valued parameters (`FrontEnd`, `Vm.parse`, the formatter argument).
-/

namespace PestSite

/-!
## Position Mapper (`line_col`, src/lib.rs lines 150-189)

The Rust code slices `&input[..pos]` (panicking when `pos` is larger than
the text or not on a character boundary) and then walks the chars of that
slice while counting `pos` down by each char's UTF-8 width.  Since the byte
length of the slice is exactly `pos`, the counter reaches 0 exactly when the
char iterator is exhausted, so the loop is equivalent to a fold over the
chars of the slice; the `None => unreachable!()` arm and the `if pos == 1`
sub-branch of the CRLF arm (which would need a 2-byte pair inside 1
remaining byte) are dead.  We embed the loop as structural recursion over
the slice's char list.
-/

/-- Loop body of `line_col`: walks the chars before the offset, tracking a
1-based (line, column) pair.  `\r\n` consumes both chars and advances the
line once; a lone `\r` falls into the ordinary-character arm (column +1);
`\n` advances the line and resets the column. -/
def lineColLoop : List Char → Nat × Nat → Nat × Nat
  | [], lc => lc
  | '\r' :: '\n' :: rest, (l, _) => lineColLoop rest (l + 1, 1)
  | '\r' :: rest, (l, c) => lineColLoop rest (l, c + 1)
  | '\n' :: rest, (l, _) => lineColLoop rest (l + 1, 1)
  | _ :: rest, (l, c) => lineColLoop rest (l, c + 1)

/-- Embedding of the slice `&input[..pos]`: the chars whose UTF-8 encoding
occupies exactly the first `pos` bytes.  `none` models the Rust panic when
`pos` exceeds the text length or falls inside a multi-byte character. -/
def byteTake : List Char → Nat → Option (List Char)
  | _, 0 => some []
  | [], _ + 1 => none
  | c :: rest, n + 1 =>
    if c.utf8Size ≤ n + 1 then
      (byteTake rest (n + 1 - c.utf8Size)).map (fun l => c :: l)
    else none

/-- The 1-based (line, column) pair computed by `line_col` before the final
`- 1` adjustment; `none` models the slicing panic. -/
def line_col_pair (pos : Nat) (input : List Char) : Option (Nat × Nat) :=
  (byteTake input pos).map (fun slice => lineColLoop slice (1, 1))

/-- Embedding of `line_col`: formats the 0-based pair as `"(line, col)"`. -/
def line_col (pos : Nat) (input : List Char) : Option String :=
  (line_col_pair pos input).map (fun lc =>
    "(" ++ toString (lc.1 - 1) ++ ", " ++ toString (lc.2 - 1) ++ ")")

/-- Unfolding lemma: a `\r` whose successor is not `\n` takes the
ordinary-character arm of the loop. -/
theorem lineColLoop_cr (rest : List Char) (l c : Nat) (h : rest.head? ≠ some '\n') :
    lineColLoop ('\r' :: rest) (l, c) = lineColLoop rest (l, c + 1) := by
  cases rest with
  | nil => rfl
  | cons r rest' =>
    have hr : r ≠ '\n' := fun hEq => h (by simp [hEq])
    simp [lineColLoop, hr]

/-- Unfolding lemma: any character other than `\r` and `\n` advances the
column and leaves the line alone. -/
theorem lineColLoop_other (ch : Char) (rest : List Char) (l c : Nat)
    (h1 : ch ≠ '\r') (h2 : ch ≠ '\n') :
    lineColLoop (ch :: rest) (l, c) = lineColLoop rest (l, c + 1) := by
  simp [lineColLoop, h1, h2]

/-- Processing a prefix and then the rest agrees with processing the whole
slice, provided the rest does not begin with `\n` (which could otherwise
pair up with a final `\r` of the prefix). -/
theorem lineColLoop_append (xs ys : List Char) (lc : Nat × Nat)
    (h : ys.head? ≠ some '\n') :
    lineColLoop (xs ++ ys) lc = lineColLoop ys (lineColLoop xs lc) := by
  induction xs, lc using lineColLoop.induct with
  | case1 lc => simp [lineColLoop]
  | case2 rest l snd ih =>
    simpa [lineColLoop] using ih
  | case3 rest l c hne ih =>
    have hhead : rest.head? ≠ some '\n' := by
      cases rest with
      | nil => simp
      | cons r rest' =>
        intro hEq
        exact hne rest' (by simpa using hEq)
    have hhead2 : (rest ++ ys).head? ≠ some '\n' := by
      cases rest with
      | nil => simpa using h
      | cons r rest' => simpa using hhead
    rw [List.cons_append, lineColLoop_cr _ _ _ hhead2, lineColLoop_cr _ _ _ hhead]
    exact ih
  | case4 rest l snd ih =>
    simpa [lineColLoop] using ih
  | case5 head rest l c hne1 hne2 hne3 ih =>
    have h1 : head ≠ '\r' := fun hEq => hne2 hEq
    have h2 : head ≠ '\n' := fun hEq => hne3 hEq
    rw [List.cons_append, lineColLoop_other _ _ _ _ h1 h2, lineColLoop_other _ _ _ _ h1 h2]
    exact ih

/-!
## Claims C1 and C3: newline conventions of the Position Mapper
-/

/-- Claim C1, counterexample: resolving offset 1 of the one-character source
`"\r"` yields line 0, column 1 (0-based) — the lone `\r` advanced the column
— whereas the claim demands line 1, column 0 (line advanced, column reset). -/
theorem c1_counterexample :
    line_col 1 ['\r'] = some "(0, 1)" ∧ line_col 1 ['\r'] ≠ some "(1, 0)" := by
  decide

/-- Claim C1 (amended): for every source text and byte offset whose preceding
text contains a `\r` not immediately followed by `\n`, resolving the offset
treats the lone `\r` as an ordinary character: the column advances by one and
the line component is unchanged, exactly as for a non-newline character. -/
theorem c1_amended_lone_cr_ordinary (input : List Char) (pos : Nat) (u v : List Char)
    (hslice : byteTake input pos = some (u ++ '\r' :: v))
    (hv : v.head? ≠ some '\n') :
    line_col_pair pos input =
      some (lineColLoop v ((lineColLoop u (1, 1)).1, (lineColLoop u (1, 1)).2 + 1)) := by
  unfold line_col_pair
  rw [hslice]
  have h1 : ('\r' :: v).head? ≠ some '\n' := by simp
  show some (lineColLoop (u ++ '\r' :: v) (1, 1)) = _
  rw [lineColLoop_append u _ _ h1]
  cases hlc : lineColLoop u (1, 1) with
  | mk l c =>
    rw [lineColLoop_cr v l c hv]

/-- Witness for the amended claim C1 at the concrete source `"\ra"`,
offset 2: the result is the loop state after treating `\r` as a plain
column-advancing character. -/
theorem c1_amended_witness :
    byteTake ['\r', 'a'] 2 = some ([] ++ '\r' :: ['a']) ∧
    (['a'] : List Char).head? ≠ some '\n' ∧
    line_col_pair 2 ['\r', 'a'] =
      some (lineColLoop ['a'] ((lineColLoop [] (1, 1)).1, (lineColLoop [] (1, 1)).2 + 1)) :=
  ⟨by decide, by decide,
    c1_amended_lone_cr_ordinary ['\r', 'a'] 2 [] ['a'] (by decide) (by decide)⟩

/-- Claim C3: a `\r` immediately followed by `\n` before the resolved offset
is counted as a single line break — relative to the state reached after the
text `u` preceding the pair, the line advances by exactly one and the column
resets to 1 exactly once for the whole CRLF pair. -/
theorem c3_crlf_counts_once (input : List Char) (pos : Nat) (u v : List Char)
    (hslice : byteTake input pos = some (u ++ '\r' :: '\n' :: v)) :
    line_col_pair pos input =
      some (lineColLoop v ((lineColLoop u (1, 1)).1 + 1, 1)) := by
  unfold line_col_pair
  rw [hslice]
  have h1 : ('\r' :: '\n' :: v).head? ≠ some '\n' := by simp
  show some (lineColLoop (u ++ '\r' :: '\n' :: v) (1, 1)) = _
  rw [lineColLoop_append u _ _ h1]
  cases hlc : lineColLoop u (1, 1) with
  | mk l c =>
    simp [lineColLoop]

/-- Witness for claim C3 at the concrete source `"a\r\nb"`, offset 4: the
CRLF pair advances the line once past the state produced by `"a"`. -/
theorem c3_witness :
    byteTake "a\r\nb".toList 4 = some (['a'] ++ '\r' :: '\n' :: ['b']) ∧
    line_col_pair 4 "a\r\nb".toList =
      some (lineColLoop ['b'] ((lineColLoop ['a'] (1, 1)).1 + 1, 1)) :=
  ⟨by decide, c3_crlf_counts_once "a\r\nb".toList 4 ['a'] ['b'] (by decide)⟩

/-!
## Tree Renderer (`format_pair`, src/lib.rs lines 106-148)

A `Pair` of the pest VM is embedded as `ParseNode`: the rule name
(`pair.as_rule()` rendered as a string), the optional node tag
(`pair.as_node_tag()`), the matched span text (`pair.as_span().as_str()`)
and the ordered child pairs (`pair.into_inner()`).  The Rust `{:?}` debug
formatting of the matched `&str` is embedded for the ASCII range
(quotes/backslash/control characters escaped, `\u` escapes in lowercase
hex); non-ASCII printable characters are kept verbatim.
-/

/-- Parse-tree node produced by a successful VM run. -/
structure ParseNode where
  rule : String
  tag : Option String
  matched : String
  children : List ParseNode

/-- Embedding of Rust's `str::repeat`, used for `"  ".repeat(indent_level)`. -/
def strRepeat (s : String) : Nat → String
  | 0 => ""
  | n + 1 => s ++ strRepeat s n

/-- Lowercase hexadecimal digits of a number, for `\u` escapes. -/
def hexDigits (n : Nat) : String := (Nat.toDigits 16 n).asString

/-- Rust `char::escape_debug` on the ASCII range: named escapes for quote,
backslash, newline, carriage return, tab and NUL, `\u` escapes for the
other control characters, everything else verbatim. -/
def escape_debug_char (c : Char) : String :=
  if c = '"' then "\\\""
  else if c = '\\' then "\\\\"
  else if c = '\n' then "\\n"
  else if c = '\r' then "\\r"
  else if c = '\t' then "\\t"
  else if c.val = 0 then "\\0"
  else if c.val < 0x20 || c.val = 0x7f then "\\u\x7b" ++ hexDigits c.toNat ++ "\x7d"
  else String.singleton c

/-- Rust `format!("{:?}", s)` for a string slice: the escaped characters
wrapped in double quotes. -/
def debug_fmt (s : String) : String :=
  "\"" ++ String.join (s.toList.map escape_debug_char) ++ "\""

/-- The `(#tag) ` prefix for a tagged node, empty otherwise (the `pair_tag`
match of `format_pair`). -/
def tagStr : Option String → String
  | some tag => "(#" ++ tag ++ ") "
  | none => ""

mutual

/-- Embedding of `format_pair`: renders one node given the indent level and
whether the node starts a fresh indented line. -/
def format_pair (pair : ParseNode) (indent_level : Nat) (is_newline : Bool) : String :=
  let indent := if is_newline then strRepeat "  " indent_level else ""
  let len := pair.children.length
  let children := format_children pair.children
      (if len > 1 then indent_level + 1 else indent_level) (len > 1)
  let dash := if is_newline then "- " else ""
  let pair_tag := tagStr pair.tag
  match children with
  | [] => indent ++ dash ++ pair_tag ++ pair.rule ++ ": " ++ debug_fmt pair.matched
  | [child] => indent ++ dash ++ pair_tag ++ pair.rule ++ " > " ++ child
  | cs => indent ++ dash ++ pair_tag ++ pair.rule ++ "\n" ++ String.intercalate "\n" cs
termination_by sizeOf pair
decreasing_by
  cases pair
  simp only [ParseNode.mk.sizeOf_spec]
  omega

/-- The `children.into_iter().map(format_pair ...)` of the source, as a
recursive helper over the child list. -/
def format_children : List ParseNode → Nat → Bool → List String
  | [], _, _ => []
  | p :: ps, il, nl => format_pair p il nl :: format_children ps il nl
termination_by l _ _ => sizeOf l

end

/-- Helper: `format_children` is exactly a map of `format_pair` over the
child list. -/
theorem format_children_eq_map (l : List ParseNode) (il : Nat) (nl : Bool) :
    format_children l il nl = l.map (fun p => format_pair p il nl) := by
  induction l with
  | nil => simp [format_children]
  | cons p ps ih => simp [format_children, ih]

/-- Claim C4: the Tree Renderer follows the three-case rule on the child
count `k`: `k = 0` renders `<indent><dash><tag>RuleName: "<escaped text>"`;
`k = 1` renders the node, ` > `, and the single child inline at the same
indent level with `is_newline` false; `k ≥ 2` renders the header and each
child at the next indent level with `is_newline` true, joined by newlines;
the two-space-per-level indent and the `- ` dash appear only when
`is_newline` is true. -/
theorem c4_three_case_rule (p : ParseNode) (il : Nat) (nl : Bool) :
    (p.children = [] →
      format_pair p il nl =
        (if nl then strRepeat "  " il else "") ++ (if nl then "- " else "")
          ++ tagStr p.tag ++ p.rule ++ ": " ++ debug_fmt p.matched) ∧
    (∀ c, p.children = [c] →
      format_pair p il nl =
        (if nl then strRepeat "  " il else "") ++ (if nl then "- " else "")
          ++ tagStr p.tag ++ p.rule ++ " > " ++ format_pair c il false) ∧
    (2 ≤ p.children.length →
      format_pair p il nl =
        (if nl then strRepeat "  " il else "") ++ (if nl then "- " else "")
          ++ tagStr p.tag ++ p.rule ++ "\n"
          ++ String.intercalate "\n"
              (p.children.map (fun c => format_pair c (il + 1) true))) := by
  refine ⟨fun h0 => ?_, fun c h1 => ?_, fun h2 => ?_⟩
  · rw [format_pair]
    simp [h0, format_children]
  · rw [format_pair]
    simp [h1, format_children]
  · rw [format_pair]
    obtain ⟨c1, c2, rest, hshape⟩ :
        ∃ c1 c2 rest, p.children = c1 :: c2 :: rest := by
      cases hc : p.children with
      | nil => rw [hc] at h2; simp at h2
      | cons c1 tl =>
        cases htl : tl with
        | nil => rw [hc, htl] at h2; simp at h2
        | cons c2 rest => exact ⟨c1, c2, rest, by simp [hc, htl]⟩
    simp only [hshape, List.length_cons, format_children_eq_map]
    have hgt : (rest.length + 1 + 1 > 1) = True := by simp
    simp [hgt, List.map]

/-- Witness for claim C4: the three cases applied to concrete leaf,
single-child and two-child nodes at indent level 0. -/
theorem c4_witness :
    format_pair ⟨"alpha", none, "aaa", []⟩ 0 true =
      (if true then strRepeat "  " 0 else "") ++ (if true then "- " else "")
        ++ tagStr none ++ "alpha" ++ ": " ++ debug_fmt "aaa" ∧
    format_pair ⟨"r", none, "ab", [⟨"x", none, "ab", []⟩]⟩ 0 true =
      (if true then strRepeat "  " 0 else "") ++ (if true then "- " else "")
        ++ tagStr none ++ "r" ++ " > " ++ format_pair ⟨"x", none, "ab", []⟩ 0 false ∧
    format_pair ⟨"s", some "t", "ab", [⟨"x", none, "a", []⟩, ⟨"y", none, "b", []⟩]⟩ 0 true =
      (if true then strRepeat "  " 0 else "") ++ (if true then "- " else "")
        ++ tagStr (some "t") ++ "s" ++ "\n"
        ++ String.intercalate "\n"
            ([⟨"x", none, "a", []⟩, ⟨"y", none, "b", []⟩].map
              (fun c => format_pair c (0 + 1) true)) :=
  ⟨(c4_three_case_rule ⟨"alpha", none, "aaa", []⟩ 0 true).1 rfl,
   (c4_three_case_rule ⟨"r", none, "ab", [⟨"x", none, "ab", []⟩]⟩ 0 true).2.1 _ rfl,
   (c4_three_case_rule ⟨"s", some "t", "ab",
      [⟨"x", none, "a", []⟩, ⟨"y", none, "b", []⟩]⟩ 0 true).2.2 (by simp)⟩

/-- Claim C9: rendering and position resolution are deterministic — on
identical parse trees `format_pair` produces byte-identical output, and on
identical offset/source pairs `line_col` resolves identically. -/
theorem c9_deterministic (p q : ParseNode) (il : Nat) (nl : Bool)
    (pos pos' : Nat) (src src' : List Char)
    (hpq : p = q) (hpos : pos = pos') (hsrc : src = src') :
    format_pair p il nl = format_pair q il nl ∧
    line_col pos src = line_col pos' src' := by
  subst hpq
  subst hpos
  subst hsrc
  exact ⟨rfl, rfl⟩

/-- Witness for claim C9 at a concrete tree and a concrete offset/source. -/
theorem c9_witness :
    format_pair ⟨"alpha", none, "aaa", []⟩ 0 true =
      format_pair ⟨"alpha", none, "aaa", []⟩ 0 true ∧
    line_col 1 ['a', 'b'] = line_col 1 ['a', 'b'] :=
  c9_deterministic ⟨"alpha", none, "aaa", []⟩ ⟨"alpha", none, "aaa", []⟩ 0 true
    1 1 ['a', 'b'] ['a', 'b'] rfl rfl rfl

/-!
## Error model, Compilation Pipeline and Execution Session
(src/lib.rs lines 17-104, src/serializer.rs)

`pest_meta` (meta-grammar parser, validator, AST builder), the optimizer and
`pest_vm` are external crates; they enter the embedding as the fields of
`FrontEnd` and as `Vm.parse`.  The `static mut VM: Option<Vm>` slot is
threaded explicitly: `compile_grammar` receives the current slot and returns
the new one; `parse_input` reads it.
-/

/-- Variant of a pest error: expectation sets or a custom message. -/
inductive ErrorVariant where
  | parsingError (positives negatives : List String)
  | customError (message : String)
deriving DecidableEq

/-- Raw byte location of a pest error: a single position or a span. -/
inductive InputLocation where
  | pos (p : Nat)
  | span (start stop : Nat)
deriving DecidableEq

/-- Compile-time pest error as consumed by `convert_error`. -/
structure PestError where
  variant : ErrorVariant
  location : InputLocation
deriving DecidableEq

/-- Compile-time diagnostic: the three-key hash map built by
`convert_error` (`from` and `to` hold rendered `"(line, col)"` strings). -/
structure Diag where
  from_ : String
  to_ : String
  message : String
deriving DecidableEq

/-- Panic site reachable from `convert_error`: the `unreachable!()` arm for
a non-custom error variant, or the string-slicing panic inside `line_col`
for an offset outside the grammar text. -/
inductive CompilePanic where
  | nonCustomError
  | invalidOffset
deriving DecidableEq

/-- Embedding of `convert_error`.  The source calls `line_col` twice with
identical arguments in the `Pos` case; `line_col` is pure, so the single
shared call below is observationally the same. -/
def convert_error (error : PestError) (grammar : List Char) : Except CompilePanic Diag :=
  match error.variant with
  | .customError message =>
    match error.location with
    | .pos p =>
      match line_col p grammar with
      | some lc => .ok ⟨lc, lc, message⟩
      | none => .error .invalidOffset
    | .span s e =>
      match line_col s grammar, line_col e grammar with
      | some f, some t => .ok ⟨f, t, message⟩
      | _, _ => .error .invalidOffset
  | .parsingError _ _ => .error .nonCustomError

/-- Line/column location attached to a run-time pest error (resolved by the
pest library itself, not by this crate's `line_col`). -/
inductive LineColLocation where
  | pos (lc : Nat × Nat)
  | span (start stop : Nat × Nat)
deriving DecidableEq

/-- Run-time parse error produced by the pest VM, carrying the fields the
serializer reads.  `display` is the fully rendered message produced by
pest's `Display` implementation after `renamed_rules` — external library
formatting, carried here as data. -/
structure RuntimeError where
  display : String
  variant : ErrorVariant
  location : InputLocation
  line_col : LineColLocation

/-- Executable grammar: `pest_vm::Vm`, exposing the one `parse` entry point
`parse_input` uses. -/
structure Vm where
  parse : String → String → Except RuntimeError (List ParseNode)

/-- Escape of one character inside a JSON string literal, as serde_json
renders it. -/
def jsonEscapeChar (c : Char) : String :=
  if c = '"' then "\\\""
  else if c = '\\' then "\\\\"
  else if c = '\n' then "\\n"
  else if c = '\r' then "\\r"
  else if c = '\t' then "\\t"
  else if c.val = 8 then "\\b"
  else if c.val = 12 then "\\f"
  else if c.val < 0x20 then
    "\\u00" ++ String.singleton (Nat.digitChar (c.toNat / 16))
      ++ String.singleton (Nat.digitChar (c.toNat % 16))
  else String.singleton c

/-- JSON string literal. -/
def jsonStr (s : String) : String :=
  "\"" ++ String.join (s.toList.map jsonEscapeChar) ++ "\""

/-- JSON array of strings. -/
def jsonStrList (l : List String) : String :=
  "[" ++ String.intercalate "," (l.map jsonStr) ++ "]"

/-- Serialization of `SerializableErrorVariant`, externally tagged as serde
renders Rust enums. -/
def variantJson : ErrorVariant → String
  | .parsingError positives negatives =>
    "\x7b\"ParsingError\":\x7b\"positives\":" ++ jsonStrList positives
      ++ ",\"negatives\":" ++ jsonStrList negatives ++ "\x7d\x7d"
  | .customError message =>
    "\x7b\"CustomError\":\x7b\"message\":" ++ jsonStr message ++ "\x7d\x7d"

/-- Serialization of `SerializableInputLocation`. -/
def locationJson : InputLocation → String
  | .pos p => "\x7b\"Pos\":" ++ toString p ++ "\x7d"
  | .span s e => "\x7b\"Span\":[" ++ toString s ++ "," ++ toString e ++ "]\x7d"

/-- JSON array for a (line, column) pair. -/
def pairJson (p : Nat × Nat) : String :=
  "[" ++ toString p.1 ++ "," ++ toString p.2 ++ "]"

/-- Serialization of `SerializableLineColLocation`. -/
def lineColLocationJson : LineColLocation → String
  | .pos lc => "\x7b\"Pos\":" ++ pairJson lc ++ "\x7d"
  | .span s e => "\x7b\"Span\":[" ++ pairJson s ++ "," ++ pairJson e ++ "]\x7d"

/-- Embedding of `format_error_json` (src/serializer.rs): the serializable
record rendered as JSON.  The pretty-printer's whitespace is abstracted
away; serde's error path (unreachable for this data shape, guarded by a
fixed fallback string) never fires in the model, so the result is total. -/
def format_error_json (error : RuntimeError) : String :=
  "\x7b\"message\":" ++ jsonStr error.display
    ++ ",\"variant\":" ++ variantJson error.variant
    ++ ",\"location\":" ++ locationJson error.location
    ++ ",\"line_col\":" ++ lineColLocationJson error.line_col ++ "\x7d"

/-- External grammar front-end capabilities (`pest_meta` and friends): the
meta-grammar parser, the renaming applied to its errors, the validator, the
AST builder, the optimizer and the VM constructor. -/
structure FrontEnd (Pairs Ast OptAst : Type) where
  parse : List Char → Except PestError Pairs
  rename_meta_rule : PestError → PestError
  validate_pairs : Pairs → Except (List PestError) Unit
  consume_rules : Pairs → Except (List PestError) Ast
  optimize : Ast → OptAst
  vm_new : OptAst → Vm

/-- Conversion of a batch of stage errors,
`errors.into_iter().map(|e| convert_error(e, grammar)).collect()`: a panic
in any conversion aborts the whole call. -/
def collectErrors (grammar : List Char) : List PestError → Except CompilePanic (List Diag)
  | [] => .ok []
  | e :: es =>
    match convert_error e grammar with
    | .error p => .error p
    | .ok d =>
      match collectErrors grammar es with
      | .error p => .error p
      | .ok ds => .ok (d :: ds)

/-- Embedding of `compile_grammar`: the `static mut VM` slot is threaded as
the `vm` argument and the second component of the result. -/
def compile_grammar {P A O : Type} (fe : FrontEnd P A O) (grammar : List Char)
    (vm : Option Vm) : Except CompilePanic (List Diag × Option Vm) :=
  match fe.parse grammar with
  | .error error =>
    match convert_error (fe.rename_meta_rule error) grammar with
    | .error p => .error p
    | .ok d => .ok ([d], vm)
  | .ok pairs =>
    match fe.validate_pairs pairs with
    | .error errors =>
      match collectErrors grammar errors with
      | .error p => .error p
      | .ok ds => .ok (ds, vm)
    | .ok _ =>
      match fe.consume_rules pairs with
      | .error errors =>
        match collectErrors grammar errors with
        | .error p => .error p
        | .ok ds => .ok (ds, vm)
      | .ok ast => .ok ([], some (fe.vm_new (fe.optimize ast)))

/-- Embedding of `parse_input`: `none` models the fatal
`expect_throw("no VM")` taken when no grammar has ever been installed. -/
def parse_input (vm : Option Vm) (rule input : String) : Option String :=
  match vm with
  | none => none
  | some vm =>
    match vm.parse rule input with
    | .ok pairs =>
      some (String.intercalate "\n" (pairs.map (fun pair => format_pair pair 0 true)))
    | .error error => some (format_error_json error)

/-- Embedding of `format_grammar_wasm`: the external `pest_fmt` formatter is
passed as a function; on its failure the original text is returned. -/
def format_grammar_wasm {E : Type} (format : String → Except E String)
    (grammar : String) : String :=
  match format grammar with
  | .ok formatted => formatted
  | .error _ => grammar

/-!
## Helper lemmas for the pipeline claims
-/

/-- Helper: a successful batch conversion yields one diagnostic per reported
error. -/
theorem collectErrors_length (grammar : List Char) (errs : List PestError)
    (ds : List Diag) (h : collectErrors grammar errs = .ok ds) :
    ds.length = errs.length := by
  induction errs generalizing ds with
  | nil =>
    unfold collectErrors at h
    injection h with h'
    subst h'
    rfl
  | cons e es ih =>
    unfold collectErrors at h
    cases hce : convert_error e grammar with
    | error p => rw [hce] at h; exact absurd h (by simp)
    | ok d =>
      rw [hce] at h
      cases hcr : collectErrors grammar es with
      | error p => rw [hcr] at h; exact absurd h (by simp)
      | ok ds' =>
        rw [hcr] at h
        injection h with h'
        subst h'
        simp [ih ds' hcr]

/-- Helper: converting an error that carries the custom-message variant
never reaches the `unreachable!()` arm. -/
theorem convert_error_custom_no_unreachable (e : PestError) (g : List Char) (m : String)
    (h : e.variant = .customError m) :
    convert_error e g ≠ .error .nonCustomError := by
  obtain ⟨v, loc⟩ := e
  simp only at h
  subst h
  cases loc with
  | pos p =>
    cases hl : line_col p g <;> simp [convert_error, hl]
  | span s t =>
    cases hls : line_col s g <;> cases hlt : line_col t g <;>
      simp [convert_error, hls, hlt]

/-- Helper: batch conversion of custom-variant errors never reaches the
`unreachable!()` arm. -/
theorem collectErrors_custom_no_unreachable (g : List Char) (errs : List PestError)
    (hc : ∀ e ∈ errs, ∃ m, e.variant = .customError m) :
    collectErrors g errs ≠ .error .nonCustomError := by
  induction errs with
  | nil => simp [collectErrors]
  | cons e es ih =>
    obtain ⟨m, hm⟩ := hc e (by simp)
    have h1 := convert_error_custom_no_unreachable e g m hm
    have h2 := ih (fun e' he' => hc e' (by simp [he']))
    unfold collectErrors
    cases hce : convert_error e g with
    | error p =>
      cases p with
      | nonCustomError => exact absurd hce h1
      | invalidOffset => simp
    | ok d =>
      cases hcr : collectErrors g es with
      | error p =>
        cases p with
        | nonCustomError => exact absurd hcr h2
        | invalidOffset => simp
      | ok ds => simp

/-!
## Claims C2, C5, C6, C7, C8, C10
-/

/-- Claim C2: a compilation that fails (returns nonempty diagnostics) leaves
the process-wide grammar slot exactly as it was before the call; the slot is
overwritten only when every stage succeeds. -/
theorem c2_failed_compile_preserves_vm {P A O : Type} (fe : FrontEnd P A O)
    (grammar : List Char) (vm : Option Vm) (diags : List Diag) (vm' : Option Vm)
    (h : compile_grammar fe grammar vm = .ok (diags, vm'))
    (hne : diags ≠ []) : vm' = vm := by
  unfold compile_grammar at h
  split at h
  · split at h
    · exact absurd h (by simp)
    · injection h with h'
      exact (congrArg Prod.snd h').symm
  · split at h
    · split at h
      · exact absurd h (by simp)
      · injection h with h'
        exact (congrArg Prod.snd h').symm
    · split at h
      · split at h
        · exact absurd h (by simp)
        · injection h with h'
          exact (congrArg Prod.snd h').symm
      · injection h with h'
        exact absurd (congrArg Prod.fst h').symm hne

/-- Claim C5 (amended): every compile-time diagnostic carries `from`/`to`
locations resolved by the Position Mapper against the original grammar text
and the error's custom message; the raw byte offset itself is not part of
the record. -/
theorem c5_amended_resolved_locations (e : PestError) (g : List Char) (d : Diag)
    (h : convert_error e g = .ok d) :
    (∃ m, e.variant = .customError m ∧ d.message = m) ∧
    (∀ p, e.location = .pos p →
      line_col p g = some d.from_ ∧ line_col p g = some d.to_) ∧
    (∀ s t, e.location = .span s t →
      line_col s g = some d.from_ ∧ line_col t g = some d.to_) := by
  obtain ⟨v, loc⟩ := e
  cases v with
  | parsingError pos neg => exact absurd h (by simp [convert_error])
  | customError m =>
    cases loc with
    | pos p =>
      cases hl : line_col p g with
      | none => rw [convert_error] at h; simp [hl] at h
      | some lc =>
        rw [convert_error] at h
        simp only [hl] at h
        injection h with h'
        subst h'
        refine ⟨⟨m, rfl, rfl⟩, ?_, ?_⟩
        · intro q hq
          cases hq
          exact ⟨hl, hl⟩
        · intro s t hst
          cases hst
    | span s t =>
      cases hls : line_col s g with
      | none => rw [convert_error] at h; simp [hls] at h
      | some f =>
        cases hlt : line_col t g with
        | none => rw [convert_error] at h; simp [hls, hlt] at h
        | some tl =>
          rw [convert_error] at h
          simp only [hls, hlt] at h
          injection h with h'
          subst h'
          refine ⟨⟨m, rfl, rfl⟩, ?_, ?_⟩
          · intro q hq
            cases hq
          · intro s' t' hst
            cases hst
            exact ⟨hls, hlt⟩

/-- Claim C5, counterexample: the compile-time diagnostic produced for a
custom error at raw byte offset 5 of `"ab\ncd\nef"` consists of the three
strings `"(1, 2)"`, `"(1, 2)"` and `"x"`; the character `5` appears in none
of them, so the raw byte offset is not preserved in the record. -/
theorem c5_counterexample :
    convert_error ⟨.customError "x", .pos 5⟩ "ab\ncd\nef".toList =
      .ok ⟨"(1, 2)", "(1, 2)", "x"⟩ ∧
    ¬ ('5' ∈ "(1, 2)".toList ∨ '5' ∈ "x".toList) :=
  ⟨rfl, by decide⟩

/-- Witness for the amended claim C5 at the concrete grammar `"ab\ncd\nef"`
and offset 5. -/
theorem c5_amended_witness :
    (∃ m, (⟨.customError "x", .pos 5⟩ : PestError).variant = .customError m ∧
      (⟨"(1, 2)", "(1, 2)", "x"⟩ : Diag).message = m) ∧
    (∀ p, (⟨.customError "x", .pos 5⟩ : PestError).location = .pos p →
      line_col p "ab\ncd\nef".toList = some (⟨"(1, 2)", "(1, 2)", "x"⟩ : Diag).from_ ∧
      line_col p "ab\ncd\nef".toList = some (⟨"(1, 2)", "(1, 2)", "x"⟩ : Diag).to_) ∧
    (∀ s t, (⟨.customError "x", .pos 5⟩ : PestError).location = .span s t →
      line_col s "ab\ncd\nef".toList = some (⟨"(1, 2)", "(1, 2)", "x"⟩ : Diag).from_ ∧
      line_col t "ab\ncd\nef".toList = some (⟨"(1, 2)", "(1, 2)", "x"⟩ : Diag).to_) :=
  c5_amended_resolved_locations ⟨.customError "x", .pos 5⟩ "ab\ncd\nef".toList
    ⟨"(1, 2)", "(1, 2)", "x"⟩ rfl

/-- Claim C6: the pipeline short-circuits on the first failing stage — a
meta-syntax parse failure yields exactly one diagnostic; a validation
failure yields one diagnostic per reported problem, and the result does not
depend on the AST-construction stage at all; an AST-construction failure
yields one diagnostic per reported problem; in every failing case the
grammar slot is returned unchanged (no installation). -/
theorem c6_short_circuit {P A O : Type} (fe fe2 : FrontEnd P A O)
    (g : List Char) (vm : Option Vm) :
    (∀ e d, fe.parse g = .error e →
      convert_error (fe.rename_meta_rule e) g = .ok d →
      compile_grammar fe g vm = .ok ([d], vm)) ∧
    (∀ p errs ds, fe.parse g = .ok p → fe.validate_pairs p = .error errs →
      collectErrors g errs = .ok ds →
      compile_grammar fe g vm = .ok (ds, vm) ∧ ds.length = errs.length) ∧
    (∀ p errs, fe.parse g = .ok p → fe.validate_pairs p = .error errs →
      fe2.parse = fe.parse → fe2.rename_meta_rule = fe.rename_meta_rule →
      fe2.validate_pairs = fe.validate_pairs →
      compile_grammar fe2 g vm = compile_grammar fe g vm) ∧
    (∀ p u errs ds, fe.parse g = .ok p → fe.validate_pairs p = .ok u →
      fe.consume_rules p = .error errs → collectErrors g errs = .ok ds →
      compile_grammar fe g vm = .ok (ds, vm) ∧ ds.length = errs.length) := by
  refine ⟨?_, ?_, ?_, ?_⟩
  · intro e d hp hce
    simp [compile_grammar, hp, hce]
  · intro p errs ds hp hv hcr
    refine ⟨?_, collectErrors_length g errs ds hcr⟩
    simp [compile_grammar, hp, hv, hcr]
  · intro p errs hp hv h1 h2 h3
    simp [compile_grammar, h1, h2, h3, hp, hv]
  · intro p u errs ds hp hv hcs hcr
    refine ⟨?_, collectErrors_length g errs ds hcr⟩
    simp [compile_grammar, hp, hv, hcs, hcr]

/-- Claim C7: running with no grammar ever installed takes the fatal
`expect_throw` path (modelled as `none`), not a recoverable diagnostic;
after a fully successful compilation the installed grammar is present and
`parse_input` always returns a string. -/
theorem c7_run_precondition {P A O : Type} (fe : FrontEnd P A O)
    (g : List Char) (vm0 : Option Vm) (rule input : String) (p : P) (ast : A)
    (hp : fe.parse g = .ok p) (hv : fe.validate_pairs p = .ok ())
    (hc : fe.consume_rules p = .ok ast) :
    parse_input none rule input = none ∧
    compile_grammar fe g vm0 = .ok ([], some (fe.vm_new (fe.optimize ast))) ∧
    (parse_input (some (fe.vm_new (fe.optimize ast))) rule input).isSome = true := by
  refine ⟨rfl, ?_, ?_⟩
  · simp [compile_grammar, hp, hv, hc]
  · unfold parse_input
    cases hpr : (fe.vm_new (fe.optimize ast)).parse rule input with
    | ok pairs => simp [hpr]
    | error err => simp [hpr]

/-- Claim C8: when the external formatter fails, `format_grammar_wasm`
returns the input grammar text unchanged and swallows the error. -/
theorem c8_formatter_failure_returns_input {E : Type}
    (format : String → Except E String) (grammar : String) (err : E)
    (h : format grammar = .error err) :
    format_grammar_wasm format grammar = grammar := by
  unfold format_grammar_wasm
  rw [h]

/-- Claim C10: when every error the three front-end stages hand to the
converter carries the custom-message variant (as `pest_meta` guarantees),
the `unreachable!()` arm of `convert_error` for expectation-set errors is
never reached during compilation. -/
theorem c10_panic_branch_unreachable {P A O : Type} (fe : FrontEnd P A O)
    (g : List Char) (vm : Option Vm)
    (hparse : ∀ e, fe.parse g = .error e →
      ∃ m, (fe.rename_meta_rule e).variant = .customError m)
    (hval : ∀ p errs e, fe.parse g = .ok p → fe.validate_pairs p = .error errs →
      e ∈ errs → ∃ m, e.variant = .customError m)
    (hcons : ∀ p errs e, fe.parse g = .ok p → fe.consume_rules p = .error errs →
      e ∈ errs → ∃ m, e.variant = .customError m) :
    compile_grammar fe g vm ≠ .error .nonCustomError := by
  unfold compile_grammar
  split
  · rename_i e hp
    obtain ⟨m, hm⟩ := hparse e hp
    have h1 := convert_error_custom_no_unreachable _ g m hm
    split
    · rename_i p hce
      intro hcontra
      injection hcontra with h'
      subst h'
      exact h1 hce
    · simp
  · rename_i pr hp
    split
    · rename_i errs hv
      have h2 := collectErrors_custom_no_unreachable g errs
        (fun e he => hval pr errs e hp hv he)
      split
      · rename_i p hcr
        intro hcontra
        injection hcontra with h'
        subst h'
        exact h2 hcr
      · simp
    · rename_i u hv
      split
      · rename_i errs hcs
        have h3 := collectErrors_custom_no_unreachable g errs
          (fun e he => hcons pr errs e hp hcs he)
        split
        · rename_i p hcr
          intro hcontra
          injection hcontra with h'
          subst h'
          exact h3 hcr
        · simp
      · simp

/-!
## Concrete collaborators used by the witnesses
-/

/-- Trivial VM used by the concrete witnesses. -/
def vmOk : Vm := ⟨fun _ _ => .ok [⟨"alpha", none, "aaa", []⟩]⟩

/-- Front-end whose meta-syntax parse fails with a custom error at offset 0. -/
def feParseErr : FrontEnd Unit Unit Unit :=
  ⟨fun _ => .error ⟨.customError "parse failed", .pos 0⟩, id,
   fun _ => .ok (), fun _ => .ok (), fun _ => (), fun _ => vmOk⟩

/-- Front-end whose validation stage reports two custom errors. -/
def feValidateErr : FrontEnd Unit Unit Unit :=
  ⟨fun _ => .ok (), id,
   fun _ => .error [⟨.customError "v1", .pos 0⟩, ⟨.customError "v2", .pos 1⟩],
   fun _ => .ok (), fun _ => (), fun _ => vmOk⟩

/-- The validation-failure front-end with a different AST-construction
stage, to exhibit that the result does not depend on it. -/
def feValidateErrAlt : FrontEnd Unit Unit Unit :=
  { feValidateErr with
    consume_rules := fun _ => .error [⟨.parsingError [] [], .pos 99⟩] }

/-- Front-end whose AST-construction stage reports one custom error. -/
def feConsumeErr : FrontEnd Unit Unit Unit :=
  ⟨fun _ => .ok (), id, fun _ => .ok (),
   fun _ => .error [⟨.customError "c1", .pos 0⟩], fun _ => (), fun _ => vmOk⟩

/-- Front-end on which all four stages succeed. -/
def feOk : FrontEnd Unit Unit Unit :=
  ⟨fun _ => .ok (), id, fun _ => .ok (), fun _ => .ok (), fun _ => (), fun _ => vmOk⟩

/-- Witness for claim C2: a front-end whose parse stage fails produces one
diagnostic and hands back the previously installed VM unchanged. -/
theorem c2_witness :
    compile_grammar feParseErr ['x'] (some vmOk) =
      .ok ([⟨"(0, 0)", "(0, 0)", "parse failed"⟩], some vmOk) ∧
    ([⟨"(0, 0)", "(0, 0)", "parse failed"⟩] : List Diag) ≠ [] ∧
    (some vmOk : Option Vm) = some vmOk :=
  ⟨rfl, by simp,
    c2_failed_compile_preserves_vm feParseErr ['x'] (some vmOk)
      [⟨"(0, 0)", "(0, 0)", "parse failed"⟩] (some vmOk) rfl (by simp)⟩

/-- Witness for claim C6: the four short-circuit cases at concrete
front-ends — parse failure, validation failure (two problems, and
independence from the AST-construction stage), and construction failure. -/
theorem c6_witness :
    compile_grammar feParseErr ['x'] none =
      .ok ([⟨"(0, 0)", "(0, 0)", "parse failed"⟩], none) ∧
    (compile_grammar feValidateErr ['x', 'y'] none =
        .ok ([⟨"(0, 0)", "(0, 0)", "v1"⟩, ⟨"(0, 1)", "(0, 1)", "v2"⟩], none) ∧
      ([⟨"(0, 0)", "(0, 0)", "v1"⟩, ⟨"(0, 1)", "(0, 1)", "v2"⟩] : List Diag).length =
        ([⟨.customError "v1", .pos 0⟩, ⟨.customError "v2", .pos 1⟩] : List PestError).length) ∧
    compile_grammar feValidateErrAlt ['x', 'y'] none =
      compile_grammar feValidateErr ['x', 'y'] none ∧
    (compile_grammar feConsumeErr ['x'] none =
        .ok ([⟨"(0, 0)", "(0, 0)", "c1"⟩], none) ∧
      ([⟨"(0, 0)", "(0, 0)", "c1"⟩] : List Diag).length =
        ([⟨.customError "c1", .pos 0⟩] : List PestError).length) :=
  ⟨(c6_short_circuit feParseErr feParseErr ['x'] none).1
      ⟨.customError "parse failed", .pos 0⟩ ⟨"(0, 0)", "(0, 0)", "parse failed"⟩ rfl rfl,
   (c6_short_circuit feValidateErr feValidateErr ['x', 'y'] none).2.1
      () [⟨.customError "v1", .pos 0⟩, ⟨.customError "v2", .pos 1⟩]
      [⟨"(0, 0)", "(0, 0)", "v1"⟩, ⟨"(0, 1)", "(0, 1)", "v2"⟩] rfl rfl rfl,
   (c6_short_circuit feValidateErr feValidateErrAlt ['x', 'y'] none).2.2.1
      () [⟨.customError "v1", .pos 0⟩, ⟨.customError "v2", .pos 1⟩]
      rfl rfl rfl rfl rfl,
   (c6_short_circuit feConsumeErr feConsumeErr ['x'] none).2.2.2
      () () [⟨.customError "c1", .pos 0⟩] [⟨"(0, 0)", "(0, 0)", "c1"⟩] rfl rfl rfl rfl⟩

/-- Witness for claim C7: before any compile the run aborts; after the
all-stages-successful front-end compiles, the run returns a string. -/
theorem c7_witness :
    parse_input none "alpha" "aaa" = none ∧
    compile_grammar feOk ['x'] none = .ok ([], some (feOk.vm_new (feOk.optimize ()))) ∧
    (parse_input (some (feOk.vm_new (feOk.optimize ()))) "alpha" "aaa").isSome = true :=
  c7_run_precondition feOk ['x'] none "alpha" "aaa" () () rfl rfl rfl

/-- Witness for claim C8: a formatter that always fails leaves the concrete
grammar text unchanged. -/
theorem c8_witness :
    format_grammar_wasm (fun _ => (.error () : Except Unit String)) "alpha" = "alpha" :=
  c8_formatter_failure_returns_input (fun _ => .error ()) "alpha" () rfl

/-- Witness for claim C10: the parse-failure front-end emits only custom
errors, so its compilation never reaches the `unreachable!()` arm. -/
theorem c10_witness :
    compile_grammar feParseErr ['x'] none ≠ .error .nonCustomError :=
  c10_panic_branch_unreachable feParseErr ['x'] none
    (by intro e he
        injection he with h
        subst h
        exact ⟨"parse failed", rfl⟩)
    (by intro p errs e hp hv he
        simp [feParseErr] at hp)
    (by intro p errs e hp hcs he
        simp [feParseErr] at hp)

end PestSite
